import Mathlib

/-!
Shallow embedding of the real-time connection and state-synchronization
engine of the TARS dashboard (src/dashboard/src/context/ConnectionContext.tsx,
with the message panel's send guard from
src/dashboard/src/components/MessagePanel.tsx and the data model from
src/dashboard/src/lib/types.ts).

Modelling conventions:
* JavaScript `undefined` for an absent field is `Option.none`; runtime
  numbers are `Int` (the claims only exercise integral counters); a JS
  addition whose left operand is `undefined` yields `NaN`, modelled as
  `none` (`jsAdd`).
* The free-form `data : Record<string, any>` payload is a closed structure
  `EventData` holding every key the handler reads, each optional.
* React `useState` slices and `useRef` cells are fields of `EngineState`;
  each handler is a pure state-transition function.
* `new Date(timestamp).toLocaleTimeString()` is locale/environment
  dependent; it is abstracted as a parameter `fmt : String → String`
  applied to the envelope's timestamp.
* `Date.now()` is passed in as `now : Int`.
-/

namespace Tars

/-- The `ConnectionState` union from types.ts. -/
inductive ConnectionState where
  | disconnected
  | connecting
  | connected
  | reconnecting
deriving DecidableEq

/-- The `SubsystemStatus` record from types.ts. The TS declaration gives string-literal
unions, but `status_change` assigns the raw `data.status` string to `agent`,
so at runtime each field is an arbitrary string; we model all four as
`String`. -/
structure SubsystemStatus where
  websocket : String
  agent : String
  mac : String
  claude : String
deriving DecidableEq

/-- Task status union from types.ts. -/
inductive TaskStatus where
  | active
  | completed
  | failed
  | queued
deriving DecidableEq

/-- The `TaskItem` record from types.ts. `text` is `data.task`, stored without a
default, hence optional at runtime. -/
structure TaskItem where
  id : Nat
  text : Option String
  time : String
  source : String
  status : TaskStatus
  startedAt : Int
  completedAt : Option Int
deriving DecidableEq

/-- The `type` tag of a `ThinkingBlock`. -/
inductive BlockType where
  | thinking
  | tool_call
  | tool_result
  | error
deriving DecidableEq

/-- The `ThinkingBlock` record from types.ts; fields not mentioned by an object
literal in the handler are absent (`none`). `toolInput` is `any` in TS; the
claims never inspect it, we model it as an optional string. -/
structure ThinkingBlock where
  id : String
  type : BlockType
  model : Option String
  text : Option String
  toolName : Option String
  toolInput : Option String
  content : Option String
  success : Option Bool
  duration : Option Int
  time : Option String
deriving DecidableEq

/-- Message sender union from types.ts. -/
inductive Sender where
  | tars
  | user
deriving DecidableEq

/-- The `ChatMessage` record from types.ts; `text` is `data.message`, stored without a
default. -/
structure ChatMessage where
  id : Nat
  text : Option String
  sender : Sender
  time : String
  timestamp : Int
deriving DecidableEq

/-- The `ActionLogEntry` record from types.ts. `success` is `data.success` (may be
absent); `duration` is `data.duration || null`. -/
structure ActionLogEntry where
  id : Nat
  toolName : String
  detail : String
  success : Option Bool
  duration : Option Int
  time : String
deriving DecidableEq

/-- The `TarsStats` record from types.ts. Every field is optional because the `stats`
event stores `data as TarsStats` verbatim: a key absent from the payload is
`undefined` in the stored snapshot. The two tally maps are association
lists. -/
structure TarsStats where
  total_events : Option Int
  total_tokens_in : Option Int
  total_tokens_out : Option Int
  total_cost : Option Int
  actions_success : Option Int
  actions_failed : Option Int
  start_time : Option Int
  uptime_seconds : Option Int
  tool_usage : Option (List (String × Int))
  model_usage : Option (List (String × Int))
deriving DecidableEq

/-- The free-form `data` payload: a closed record of every key the handler
reads, each optional (absent = `none`). For a `stats` event the payload is
read wholesale through the `TarsStats`-named keys. -/
structure EventData where
  task : Option String
  source : Option String
  response : Option String
  model : Option String
  text : Option String
  tool_name : Option String
  tool_input : Option String
  content : Option String
  success : Option Bool
  duration : Option Int
  message : Option String
  error : Option String
  tokens_in : Option Int
  tokens_out : Option Int
  status : Option String
  context : Option String
  preferences : Option String
  total_events : Option Int
  total_tokens_in : Option Int
  total_tokens_out : Option Int
  total_cost : Option Int
  actions_success : Option Int
  actions_failed : Option Int
  start_time : Option Int
  uptime_seconds : Option Int
  tool_usage : Option (List (String × Int))
  model_usage : Option (List (String × Int))
deriving DecidableEq

/-- A payload with every key absent. -/
def noData : EventData :=
  ⟨none, none, none, none, none, none, none, none, none, none, none, none,
   none, none, none, none, none, none, none, none, none, none, none, none,
   none, none, none⟩

/-- The `TarsEvent` record from types.ts: the inbound event envelope. -/
structure TarsEvent where
  type : String
  timestamp : String
  ts_unix : Int
  data : EventData
deriving DecidableEq

/-- JS `a || dflt` on an optional string: `undefined` and `""` are falsy. -/
def orStr (a : Option String) (dflt : String) : String :=
  match a with
  | none => dflt
  | some v => if v = "" then dflt else v

/-- JS `(x || 0)` on an optional number (missing numeric counts as zero). -/
def orZero (a : Option Int) : Int :=
  match a with
  | none => 0
  | some v => v

/-- JS `x || null` on an optional number: `undefined` and `0` are falsy. -/
def orNullInt (a : Option Int) : Option Int :=
  match a with
  | none => none
  | some v => if v = 0 then none else some v

/-- JS `prev + n` where `prev` may be `undefined`: `undefined + n` is `NaN`
(a non-number, collapsed to `none`). -/
def jsAdd (prev : Option Int) (n : Int) : Option Int :=
  match prev with
  | none => none
  | some v => some (v + n)

/-- JS string coercion in concatenation: `"" + undefined` is `"undefined"`. -/
def jsToString (a : Option String) : String :=
  match a with
  | none => "undefined"
  | some v => v

/-- The effect of `setStats(data as TarsStats)`: the cast keeps the payload verbatim —
each stats field is the payload's same-named key, absent keys staying
absent. No zero-defaulting occurs here. -/
def castStats (d : EventData) : TarsStats :=
  ⟨d.total_events, d.total_tokens_in, d.total_tokens_out, d.total_cost,
   d.actions_success, d.actions_failed, d.start_time, d.uptime_seconds,
   d.tool_usage, d.model_usage⟩

/-- The engine state: all `useState` slices and `useRef` counters of
`TarsProvider`. -/
structure EngineState where
  connectionState : ConnectionState
  subsystems : SubsystemStatus
  tasks : List TaskItem
  thinkingBlocks : List ThinkingBlock
  messages : List ChatMessage
  actionLog : List ActionLogEntry
  stats : TarsStats
  currentModel : String
  memoryContext : String
  memoryPreferences : String
  taskId : Nat
  msgId : Nat
  actionId : Nat
  blockId : Nat
  currentThink : Option String
deriving DecidableEq

/-- The `defaultStats` value from ConnectionContext.tsx; `start_time` is
`Date.now() / 1000` at module load, passed in as `t0`. -/
def defaultStats (t0 : Int) : TarsStats :=
  ⟨some 0, some 0, some 0, some 0, some 0, some 0, some t0, some 0,
   some [], some []⟩

/-- The initial `useState`/`useRef` values of `TarsProvider`. -/
def initialState (t0 : Int) : EngineState :=
  ⟨ConnectionState.disconnected,
   ⟨"disconnected", "offline", "unreachable", "idle"⟩,
   [], [], [], [], defaultStats t0, "--", "", "", 0, 0, 0, 0, none⟩

/-- Marks an active task completed at `now`; identity on other tasks
(the body of the `prev.map` in the `task_received` and `task_completed`
cases). -/
def completeActive (now : Int) (t : TaskItem) : TaskItem :=
  if t.status = TaskStatus.active then
    { t with status := TaskStatus.completed, completedAt := some now }
  else t

/-- The `handleEvent` function from ConnectionContext.tsx: the Event Router's single
entry point, as a pure transition on `EngineState`. `fmt` abstracts
`(new Date ·).toLocaleTimeString()`; `now` is `Date.now()`. The browser
notification calls are fire-and-forget collaborators with no state
effect and are omitted. -/
def handleEvent (fmt : String → String) (now : Int) (event : TarsEvent)
    (s : EngineState) : EngineState :=
  let time := fmt event.timestamp
  if event.type = "task_received" then
    let tid := s.taskId + 1
    let task : TaskItem :=
      ⟨tid, event.data.task, time, orStr event.data.source "imessage",
       TaskStatus.active, now, none⟩
    { s with taskId := tid,
             tasks := task :: s.tasks.map (completeActive now),
             subsystems := { s.subsystems with agent := "working" } }
  else if event.type = "task_completed" then
    { s with tasks := s.tasks.map (completeActive now),
             subsystems := { s.subsystems with agent := "online" } }
  else if event.type = "thinking_start" then
    let bid := s.blockId + 1
    let id := "think-" ++ toString bid
    { s with blockId := bid,
             currentThink := some id,
             thinkingBlocks := s.thinkingBlocks ++
               [⟨id, BlockType.thinking, some (orStr event.data.model ""),
                 some "", none, none, none, none, none, none⟩],
             currentModel := orStr event.data.model "",
             subsystems := { s.subsystems with claude := "active" } }
  else if event.type = "thinking" then
    { s with thinkingBlocks :=
        match s.thinkingBlocks.findIdx? (fun b => some b.id == s.currentThink) with
        | none => s.thinkingBlocks
        | some idx =>
          match s.thinkingBlocks.get? idx with
          | none => s.thinkingBlocks
          | some b =>
            s.thinkingBlocks.set idx
              { b with text := some (orStr b.text "" ++ jsToString event.data.text) } }
  else if event.type = "tool_called" then
    let bid := s.blockId + 1
    { s with blockId := bid,
             currentThink := none,
             thinkingBlocks := s.thinkingBlocks ++
               [⟨"tool-" ++ toString bid, BlockType.tool_call, none, none,
                 event.data.tool_name, event.data.tool_input, none, none,
                 none, some time⟩] }
  else if event.type = "tool_result" then
    let bid := s.blockId + 1
    let aid := s.actionId + 1
    { s with blockId := bid,
             actionId := aid,
             thinkingBlocks := s.thinkingBlocks ++
               [⟨"result-" ++ toString bid, BlockType.tool_result, none, none,
                 event.data.tool_name, none, event.data.content,
                 event.data.success, event.data.duration, some time⟩],
             actionLog := s.actionLog ++
               [⟨aid, orStr event.data.tool_name "--",
                 (orStr event.data.content "").take 200,
                 event.data.success, orNullInt event.data.duration, time⟩],
             subsystems := { s.subsystems with claude := "idle" } }
  else if event.type = "imessage_sent" then
    let mid := s.msgId + 1
    { s with msgId := mid,
             messages := s.messages ++
               [⟨mid, event.data.message, Sender.tars, time, now⟩] }
  else if event.type = "imessage_received" then
    let mid := s.msgId + 1
    { s with msgId := mid,
             messages := s.messages ++
               [⟨mid, event.data.message, Sender.user, time, now⟩] }
  else if event.type = "api_call" then
    { s with currentModel := orStr event.data.model "",
             stats := { s.stats with
               total_tokens_in :=
                 jsAdd s.stats.total_tokens_in (orZero event.data.tokens_in),
               total_tokens_out :=
                 jsAdd s.stats.total_tokens_out (orZero event.data.tokens_out) } }
  else if event.type = "status_change" then
    { s with subsystems :=
        { s.subsystems with agent := orStr event.data.status "online" } }
  else if event.type = "error" then
    let bid := s.blockId + 1
    { s with blockId := bid,
             thinkingBlocks := s.thinkingBlocks ++
               [⟨"err-" ++ toString bid, BlockType.error, none,
                 some (orStr event.data.message
                   (orStr event.data.error "Unknown error")),
                 none, none, none, none, none, none⟩] }
  else if event.type = "stats" then
    { s with stats := castStats event.data }
  else if event.type = "memory_data" then
    { s with memoryContext := orStr event.data.context "",
             memoryPreferences := orStr event.data.preferences "" }
  else if event.type = "kill_switch" then
    { s with subsystems := { s.subsystems with agent := "killed" } }
  else
    s

/-- Outbound command frames sent through the WebSocketManager (restricted
to the frame types the modelled steps emit). -/
inductive Frame where
  | send_task (task : String)
  | get_stats
  | kill
deriving DecidableEq

/-- Modelled from the spec: `WebSocketManager.send` (src/dashboard/src/lib/ws.ts,
not under src/) "transmits a JSON-serializable command frame if and only if
state is `connected`; otherwise the frame is silently dropped" (§4.1). The
result is the list of frames actually transmitted. -/
def wsSend (c : ConnectionState) (f : Frame) : List Frame :=
  if c = ConnectionState.connected then [f] else []

/-- The `ws.onStateChange` callback in `TarsProvider` (lines 224–231):
records the new connection state and updates the `websocket` and `mac`
subsystem fields from it. -/
def applyStateChange (c : ConnectionState) (s : EngineState) : EngineState :=
  { s with connectionState := c,
           subsystems := { s.subsystems with
             websocket :=
               if c = ConnectionState.connected then "connected"
               else if c = ConnectionState.reconnecting then "reconnecting"
               else "disconnected",
             mac :=
               if c = ConnectionState.connected then "reachable"
               else "unreachable" } }

/-- The `sendTask` command from ConnectionContext.tsx: pass-through frame, no local
mutation. -/
def sendTask (task : String) (s : EngineState) : EngineState × List Frame :=
  (s, wsSend s.connectionState (Frame.send_task task))

/-- The `sendMessage` command from ConnectionContext.tsx: submits a `send_task` frame
and unconditionally appends an optimistic local `ChatMessage`
(sender = user). `time` abstracts `(new Date).toLocaleTimeString()`;
`now` is `Date.now()`. -/
def sendMessage (now : Int) (time : String) (msg : String)
    (s : EngineState) : EngineState × List Frame :=
  let frames := wsSend s.connectionState (Frame.send_task msg)
  let mid := s.msgId + 1
  ({ s with msgId := mid,
            messages := s.messages ++
              [⟨mid, some msg, Sender.user, time, now⟩] }, frames)

/-- The `killAgent` command from ConnectionContext.tsx: submits a `kill` frame and
optimistically sets the `agent` subsystem field to `killed`. -/
def killAgent (s : EngineState) : EngineState × List Frame :=
  ({ s with subsystems := { s.subsystems with agent := "killed" } },
   wsSend s.connectionState Frame.kill)

/-- The `handleSend` callback from MessagePanel.tsx (lines 19–26): trims the input and
returns without effect when the trimmed text is empty or the connection is
not `connected`; otherwise calls `sendMessage` with the trimmed text. The
panel-local `setInput`/`setSending` rendering state is outside the core. -/
def handleSend (now : Int) (time : String) (input : String)
    (s : EngineState) : EngineState × List Frame :=
  let text := input.trim
  if text = "" ∨ s.connectionState ≠ ConnectionState.connected then (s, [])
  else sendMessage now time text s

/-- One tick of the periodic stats-refresh interval in `TarsProvider`
(lines 240–247, `setInterval(..., 5000)`): while `connected`, send a
`get_stats` frame; otherwise do nothing. -/
def heartbeatTick (s : EngineState) : EngineState × List Frame :=
  (s, if s.connectionState = ConnectionState.connected then
        wsSend s.connectionState Frame.get_stats
      else [])

/-- One unit of work on the engine's single cooperative queue: an inbound
event, a connection-state change, a command from the surface, or a
heartbeat tick. -/
inductive Step where
  | inbound (now : Int) (e : TarsEvent)
  | stateChange (c : ConnectionState)
  | sendTaskCmd (task : String)
  | sendMsg (now : Int) (time : String) (msg : String)
  | kill
  | tick

/-- Executes one step, returning the next state and the transmitted
frames. -/
def runStep (fmt : String → String) : Step → EngineState → EngineState × List Frame
  | Step.inbound now e, s => (handleEvent fmt now e s, [])
  | Step.stateChange c, s => (applyStateChange c s, [])
  | Step.sendTaskCmd task, s => sendTask task s
  | Step.sendMsg now time msg, s => sendMessage now time msg s
  | Step.kill, s => killAgent s
  | Step.tick, s => heartbeatTick s

/-- Executes a sequence of steps, accumulating transmitted frames in
order. -/
def runSteps (fmt : String → String) : List Step → EngineState → EngineState × List Frame
  | [], s => (s, [])
  | st :: rest, s =>
    let r := runStep fmt st s
    let r2 := runSteps fmt rest r.1
    (r2.1, r.2 ++ r2.2)

/-- The event types the router's dispatch recognizes. -/
def knownEventTypes : List String :=
  ["task_received", "task_completed", "thinking_start", "thinking",
   "tool_called", "tool_result", "imessage_sent", "imessage_received",
   "api_call", "status_change", "error", "stats", "memory_data",
   "kill_switch"]

/-- In a newest-first task list, only the head position may hold an active
task. -/
def atMostHeadActive : List TaskItem → Prop
  | [] => True
  | _ :: rest => ∀ t ∈ rest, t.status ≠ TaskStatus.active

/-- Predicate `ascChain lo hi l`: the entries of `l` strictly increase, the first is
above `lo`, and the last is at most `hi` (counter-bounded assignment
order). -/
def ascChain : Nat → Nat → List Nat → Prop
  | lo, hi, [] => lo ≤ hi
  | lo, hi, n :: rest => lo < n ∧ ascChain n hi rest

/-- Predicate `descChain hi l`: the entries of `l` strictly decrease starting at most
`hi` (newest-first storage of a strictly increasing assignment series). -/
def descChain : Nat → List Nat → Prop
  | _, [] => True
  | hi, n :: rest => 0 < n ∧ n ≤ hi ∧ descChain (n - 1) rest

/-- The string id of a ThinkingBlock carries serial number `n` from the
shared block counter, under one of the four tags the router uses. -/
def blockIdNum (n : Nat) (b : ThinkingBlock) : Prop :=
  b.id = "think-" ++ toString n ∨ b.id = "tool-" ++ toString n
    ∨ b.id = "result-" ++ toString n ∨ b.id = "err-" ++ toString n

/-- Predicate `blockChain lo hi l`: an underlying strictly increasing sequence of
serial numbers, each above `lo` and finally at most `hi`, generates the
block ids of `l` in order. -/
def blockChain : Nat → Nat → List ThinkingBlock → Prop
  | lo, hi, [] => lo ≤ hi
  | lo, hi, b :: rest => ∃ n, lo < n ∧ blockIdNum n b ∧ blockChain n hi rest

/-- The id-monotonicity invariant: each series' stored ids form a
counter-bounded chain (messages and action log in append order, tasks in
newest-first order, thinking blocks through their numeric serials). -/
def IdInv (s : EngineState) : Prop :=
  ascChain 0 s.msgId (s.messages.map ChatMessage.id)
  ∧ ascChain 0 s.actionId (s.actionLog.map ActionLogEntry.id)
  ∧ descChain s.taskId (s.tasks.map TaskItem.id)
  ∧ blockChain 0 s.blockId s.thinkingBlocks

/-- Number of `get_stats` frames in a transmitted-frame trace. -/
def countGetStats (frames : List Frame) : Nat :=
  (frames.filter (fun f => f == Frame.get_stats)).length

/-- Number of heartbeat ticks of a step sequence that occur while the
engine is `connected`, threading the step semantics. -/
def connTicks (fmt : String → String) : List Step → EngineState → Nat
  | [], _ => 0
  | Step.tick :: rest, s =>
    (if s.connectionState = ConnectionState.connected then 1 else 0)
      + connTicks fmt rest (runStep fmt Step.tick s).1
  | st :: rest, s => connTicks fmt rest (runStep fmt st s).1

lemma handleEvent_unknown (fmt : String → String) (now : Int) (t ts : String) (u : Int)
    (d : EventData) (s : EngineState)
    (h1 : t ≠ "task_received") (h2 : t ≠ "task_completed") (h3 : t ≠ "thinking_start")
    (h4 : t ≠ "thinking") (h5 : t ≠ "tool_called") (h6 : t ≠ "tool_result")
    (h7 : t ≠ "imessage_sent") (h8 : t ≠ "imessage_received") (h9 : t ≠ "api_call")
    (h10 : t ≠ "status_change") (h11 : t ≠ "error") (h12 : t ≠ "stats")
    (h13 : t ≠ "memory_data") (h14 : t ≠ "kill_switch") :
    handleEvent fmt now ⟨t, ts, u, d⟩ s = s := by
  unfold handleEvent
  dsimp only
  rw [if_neg h1, if_neg h2, if_neg h3, if_neg h4, if_neg h5, if_neg h6, if_neg h7,
      if_neg h8, if_neg h9, if_neg h10, if_neg h11, if_neg h12, if_neg h13, if_neg h14]

lemma handleEvent_of_not_known (fmt : String → String) (now : Int) (t ts : String) (u : Int)
    (d : EventData) (s : EngineState) (h : t ∉ knownEventTypes) :
    handleEvent fmt now ⟨t, ts, u, d⟩ s = s := by
  simp only [knownEventTypes, List.mem_cons, List.not_mem_nil, or_false, not_or] at h
  obtain ⟨h1, h2, h3, h4, h5, h6, h7, h8, h9, h10, h11, h12, h13, h14⟩ := h
  exact handleEvent_unknown fmt now t ts u d s h1 h2 h3 h4 h5 h6 h7 h8 h9 h10 h11 h12 h13 h14

lemma handleEvent_mac_eq (fmt : String → String) (now : Int) (e : TarsEvent) (s : EngineState) :
    (handleEvent fmt now e s).subsystems.mac = s.subsystems.mac := by
  obtain ⟨t, ts, u, d⟩ := e
  by_cases h1 : t = "task_received"
  · subst h1; rfl
  by_cases h2 : t = "task_completed"
  · subst h2; rfl
  by_cases h3 : t = "thinking_start"
  · subst h3; rfl
  by_cases h4 : t = "thinking"
  · subst h4; rfl
  by_cases h5 : t = "tool_called"
  · subst h5; rfl
  by_cases h6 : t = "tool_result"
  · subst h6; rfl
  by_cases h7 : t = "imessage_sent"
  · subst h7; rfl
  by_cases h8 : t = "imessage_received"
  · subst h8; rfl
  by_cases h9 : t = "api_call"
  · subst h9; rfl
  by_cases h10 : t = "status_change"
  · subst h10; rfl
  by_cases h11 : t = "error"
  · subst h11; rfl
  by_cases h12 : t = "stats"
  · subst h12; rfl
  by_cases h13 : t = "memory_data"
  · subst h13; rfl
  by_cases h14 : t = "kill_switch"
  · subst h14; rfl
  rw [handleEvent_unknown fmt now t ts u d s h1 h2 h3 h4 h5 h6 h7 h8 h9 h10 h11 h12 h13 h14]

lemma completeActive_not_active (now : Int) (l : List TaskItem) :
    ∀ t ∈ l.map (completeActive now), t.status ≠ TaskStatus.active := by
  intro t ht
  rcases List.mem_map.1 ht with ⟨x, hx, rfl⟩
  unfold completeActive
  split
  · simp
  · assumption

lemma allNotActive_atMostHead (l : List TaskItem)
    (h : ∀ t ∈ l, t.status ≠ TaskStatus.active) : atMostHeadActive l := by
  cases l with
  | nil => trivial
  | cons a rest => exact fun t ht => h t (List.mem_cons_of_mem a ht)

lemma handleEvent_atMostHeadActive (fmt : String → String) (now : Int)
    (e : TarsEvent) (s : EngineState) (h : atMostHeadActive s.tasks) :
    atMostHeadActive (handleEvent fmt now e s).tasks := by
  obtain ⟨t, ts, u, d⟩ := e
  by_cases h1 : t = "task_received"
  · subst h1
    exact fun t2 ht2 => completeActive_not_active now s.tasks t2 ht2
  by_cases h2 : t = "task_completed"
  · subst h2
    exact allNotActive_atMostHead _ (completeActive_not_active now s.tasks)
  by_cases h3 : t = "thinking_start"
  · subst h3; exact h
  by_cases h4 : t = "thinking"
  · subst h4; exact h
  by_cases h5 : t = "tool_called"
  · subst h5; exact h
  by_cases h6 : t = "tool_result"
  · subst h6; exact h
  by_cases h7 : t = "imessage_sent"
  · subst h7; exact h
  by_cases h8 : t = "imessage_received"
  · subst h8; exact h
  by_cases h9 : t = "api_call"
  · subst h9; exact h
  by_cases h10 : t = "status_change"
  · subst h10; exact h
  by_cases h11 : t = "error"
  · subst h11; exact h
  by_cases h12 : t = "stats"
  · subst h12; exact h
  by_cases h13 : t = "memory_data"
  · subst h13; exact h
  by_cases h14 : t = "kill_switch"
  · subst h14; exact h
  rw [handleEvent_unknown fmt now t ts u d s h1 h2 h3 h4 h5 h6 h7 h8 h9 h10 h11 h12 h13 h14]
  exact h

lemma runStep_atMostHeadActive (fmt : String → String) (st : Step) (s : EngineState)
    (h : atMostHeadActive s.tasks) : atMostHeadActive (runStep fmt st s).1.tasks := by
  cases st with
  | inbound now e => exact handleEvent_atMostHeadActive fmt now e s h
  | stateChange c => exact h
  | sendTaskCmd task => exact h
  | sendMsg now time msg => exact h
  | kill => exact h
  | tick => exact h

lemma runSteps_atMostHeadActive (fmt : String → String) (steps : List Step) :
    ∀ s : EngineState, atMostHeadActive s.tasks →
      atMostHeadActive (runSteps fmt steps s).1.tasks := by
  induction steps with
  | nil => exact fun s h => h
  | cons st rest ih => exact fun s h => ih _ (runStep_atMostHeadActive fmt st s h)

lemma atMostHeadActive_filter_le_one (l : List TaskItem) (h : atMostHeadActive l) :
    (l.filter (fun t => t.status == TaskStatus.active)).length ≤ 1 := by
  cases l with
  | nil => simp
  | cons a rest =>
    have hrest : rest.filter (fun t => t.status == TaskStatus.active) = [] := by
      rw [List.filter_eq_nil_iff]
      intro t ht
      simpa using h t ht
    cases ha : (a.status == TaskStatus.active) <;> simp [List.filter_cons, ha, hrest]

lemma atMostHeadActive_head (l : List TaskItem) (h : atMostHeadActive l) :
    ∀ t ∈ l, t.status = TaskStatus.active → l.head? = some t := by
  cases l with
  | nil => intro t ht; cases ht
  | cons a rest =>
    intro t ht hact
    rcases List.mem_cons.1 ht with rfl | hmem
    · rfl
    · exact absurd hact (h t hmem)

lemma ascChain_append (l : List Nat) : ∀ lo hi n, ascChain lo hi l → hi < n →
    ascChain lo n (l ++ [n]) := by
  induction l with
  | nil => exact fun lo hi n h hlt => ⟨Nat.lt_of_le_of_lt h hlt, Nat.le_refl n⟩
  | cons m rest ih => exact fun lo hi n h hlt => ⟨h.1, ih m hi n h.2 hlt⟩

lemma blockChain_append (l : List ThinkingBlock) : ∀ lo hi n b,
    blockChain lo hi l → hi < n → blockIdNum n b →
    blockChain lo n (l ++ [b]) := by
  induction l with
  | nil =>
    exact fun lo hi n b h hlt hb => ⟨n, Nat.lt_of_le_of_lt h hlt, hb, Nat.le_refl n⟩
  | cons b2 rest ih =>
    intro lo hi n b h hlt hb
    obtain ⟨m, hm, hbm, hch⟩ := h
    exact ⟨m, hm, hbm, ih m hi n b hch hlt hb⟩

lemma blockChain_set (l : List ThinkingBlock) : ∀ lo hi i b b2,
    blockChain lo hi l → l.get? i = some b → b2.id = b.id →
    blockChain lo hi (l.set i b2) := by
  induction l with
  | nil => intro lo hi i b b2 h hg hid; simp at hg
  | cons a rest ih =>
    intro lo hi i b b2 h hg hid
    obtain ⟨m, hm, ham, hch⟩ := h
    cases i with
    | zero =>
      have hab : a = b := by simpa using hg
      subst hab
      have hb2 : blockIdNum m b2 := by
        unfold blockIdNum at ham ⊢
        rw [hid]
        exact ham
      exact ⟨m, hm, hb2, hch⟩
    | succ j =>
      exact ⟨m, hm, ham, ih m hi j b b2 hch (by simpa using hg) hid⟩

lemma ascChain_append_map {A : Type} (f : A → Nat) (l : List A) (x : A) (lo hi : Nat)
    (h : ascChain lo hi (l.map f)) (hlt : hi < f x) :
    ascChain lo (f x) ((l ++ [x]).map f) := by
  rw [List.map_append]
  exact ascChain_append (l.map f) lo hi (f x) h hlt

lemma map_completeActive_ids (now : Int) (l : List TaskItem) :
    (l.map (completeActive now)).map TaskItem.id = l.map TaskItem.id := by
  induction l with
  | nil => rfl
  | cons a rest ih =>
    have ha : (completeActive now a).id = a.id := by
      unfold completeActive
      split <;> rfl
    show (completeActive now a).id :: (rest.map (completeActive now)).map TaskItem.id
      = a.id :: rest.map TaskItem.id
    rw [ha, ih]

lemma handleEvent_IdInv (fmt : String → String) (now : Int) (e : TarsEvent)
    (s : EngineState) (h : IdInv s) : IdInv (handleEvent fmt now e s) := by
  obtain ⟨hm, ha, ht, hb⟩ := h
  obtain ⟨t, ts, u, d⟩ := e
  by_cases h1 : t = "task_received"
  · subst h1
    refine ⟨hm, ha, ?_, hb⟩
    show descChain (s.taskId + 1)
      ((s.taskId + 1) :: (s.tasks.map (completeActive now)).map TaskItem.id)
    rw [map_completeActive_ids]
    exact ⟨Nat.succ_pos _, Nat.le_refl _, ht⟩
  by_cases h2 : t = "task_completed"
  · subst h2
    refine ⟨hm, ha, ?_, hb⟩
    show descChain s.taskId ((s.tasks.map (completeActive now)).map TaskItem.id)
    rw [map_completeActive_ids]
    exact ht
  by_cases h3 : t = "thinking_start"
  · subst h3
    exact ⟨hm, ha, ht,
      blockChain_append s.thinkingBlocks 0 s.blockId (s.blockId + 1) _ hb
        (Nat.lt_succ_self _) (Or.inl rfl)⟩
  by_cases h4 : t = "thinking"
  · subst h4
    refine ⟨hm, ha, ht, ?_⟩
    show blockChain 0 s.blockId
      (match s.thinkingBlocks.findIdx? (fun b => some b.id == s.currentThink) with
       | none => s.thinkingBlocks
       | some idx =>
         match s.thinkingBlocks.get? idx with
         | none => s.thinkingBlocks
         | some b =>
           s.thinkingBlocks.set idx
             { b with text := some (orStr b.text "" ++ jsToString d.text) })
    cases hf : s.thinkingBlocks.findIdx? (fun b => some b.id == s.currentThink) with
    | none => exact hb
    | some idx =>
      show blockChain 0 s.blockId
        (match s.thinkingBlocks.get? idx with
         | none => s.thinkingBlocks
         | some b =>
           s.thinkingBlocks.set idx
             { b with text := some (orStr b.text "" ++ jsToString d.text) })
      cases hg : s.thinkingBlocks.get? idx with
      | none => exact hb
      | some b => exact blockChain_set s.thinkingBlocks 0 s.blockId idx b _ hb hg rfl
  by_cases h5 : t = "tool_called"
  · subst h5
    exact ⟨hm, ha, ht,
      blockChain_append s.thinkingBlocks 0 s.blockId (s.blockId + 1) _ hb
        (Nat.lt_succ_self _) (Or.inr (Or.inl rfl))⟩
  by_cases h6 : t = "tool_result"
  · subst h6
    refine ⟨hm, ?_, ht, ?_⟩
    · exact ascChain_append_map ActionLogEntry.id s.actionLog
        ⟨s.actionId + 1, orStr d.tool_name "--", (orStr d.content "").take 200,
         d.success, orNullInt d.duration, fmt ts⟩ 0 s.actionId ha
        (Nat.lt_succ_self _)
    · exact blockChain_append s.thinkingBlocks 0 s.blockId (s.blockId + 1) _ hb
        (Nat.lt_succ_self _) (Or.inr (Or.inr (Or.inl rfl)))
  by_cases h7 : t = "imessage_sent"
  · subst h7
    exact ⟨ascChain_append_map ChatMessage.id s.messages
      ⟨s.msgId + 1, d.message, Sender.tars, fmt ts, now⟩ 0 s.msgId hm
      (Nat.lt_succ_self _), ha, ht, hb⟩
  by_cases h8 : t = "imessage_received"
  · subst h8
    exact ⟨ascChain_append_map ChatMessage.id s.messages
      ⟨s.msgId + 1, d.message, Sender.user, fmt ts, now⟩ 0 s.msgId hm
      (Nat.lt_succ_self _), ha, ht, hb⟩
  by_cases h9 : t = "api_call"
  · subst h9; exact ⟨hm, ha, ht, hb⟩
  by_cases h10 : t = "status_change"
  · subst h10; exact ⟨hm, ha, ht, hb⟩
  by_cases h11 : t = "error"
  · subst h11
    exact ⟨hm, ha, ht,
      blockChain_append s.thinkingBlocks 0 s.blockId (s.blockId + 1) _ hb
        (Nat.lt_succ_self _) (Or.inr (Or.inr (Or.inr rfl)))⟩
  by_cases h12 : t = "stats"
  · subst h12; exact ⟨hm, ha, ht, hb⟩
  by_cases h13 : t = "memory_data"
  · subst h13; exact ⟨hm, ha, ht, hb⟩
  by_cases h14 : t = "kill_switch"
  · subst h14; exact ⟨hm, ha, ht, hb⟩
  rw [handleEvent_unknown fmt now t ts u d s h1 h2 h3 h4 h5 h6 h7 h8 h9 h10 h11 h12 h13 h14]
  exact ⟨hm, ha, ht, hb⟩

lemma runStep_IdInv (fmt : String → String) (st : Step) (s : EngineState)
    (h : IdInv s) : IdInv (runStep fmt st s).1 := by
  obtain ⟨hm, ha, ht, hb⟩ := h
  cases st with
  | inbound now e => exact handleEvent_IdInv fmt now e s ⟨hm, ha, ht, hb⟩
  | stateChange c => exact ⟨hm, ha, ht, hb⟩
  | sendTaskCmd task => exact ⟨hm, ha, ht, hb⟩
  | sendMsg now time msg =>
    exact ⟨ascChain_append_map ChatMessage.id s.messages
      ⟨s.msgId + 1, some msg, Sender.user, time, now⟩ 0 s.msgId hm
      (Nat.lt_succ_self _), ha, ht, hb⟩
  | kill => exact ⟨hm, ha, ht, hb⟩
  | tick => exact ⟨hm, ha, ht, hb⟩

lemma runSteps_IdInv (fmt : String → String) (steps : List Step) :
    ∀ s : EngineState, IdInv s → IdInv (runSteps fmt steps s).1 := by
  induction steps with
  | nil => exact fun s h => h
  | cons st rest ih => exact fun s h => ih _ (runStep_IdInv fmt st s h)

lemma ascChain_chain (l : List Nat) : ∀ lo hi, ascChain lo hi l →
    List.Chain' (fun a b => a < b) l := by
  induction l with
  | nil => intro lo hi h; exact List.chain'_nil
  | cons n rest ih =>
    intro lo hi h
    cases rest with
    | nil => simp
    | cons m rest2 => exact List.chain'_cons.2 ⟨h.2.1, ih n hi h.2⟩

lemma descChain_chain (l : List Nat) : ∀ hi, descChain hi l →
    List.Chain' (fun a b => a > b) l := by
  induction l with
  | nil => intro hi h; exact List.chain'_nil
  | cons n rest ih =>
    intro hi h
    cases rest with
    | nil => simp
    | cons m rest2 =>
      obtain ⟨hpos, hle, hch⟩ := h
      have hch2 := hch
      obtain ⟨hposm, hlem, -⟩ := hch2
      exact List.chain'_cons.2 ⟨by omega, ih (n - 1) hch⟩

lemma countGetStats_append (a b : List Frame) :
    countGetStats (a ++ b) = countGetStats a + countGetStats b := by
  simp [countGetStats, List.filter_append]

lemma countGetStats_wsSend_send_task (c : ConnectionState) (task : String) :
    countGetStats (wsSend c (Frame.send_task task)) = 0 := by
  unfold wsSend
  by_cases h : c = ConnectionState.connected <;> simp [h, countGetStats]

lemma countGetStats_wsSend_kill (c : ConnectionState) :
    countGetStats (wsSend c Frame.kill) = 0 := by
  unfold wsSend
  by_cases h : c = ConnectionState.connected <;> simp [h, countGetStats]

/-- Claim C1: over any interleaving of events and commands from the initial state,
at most one task is `active`, and an active task is the head of the
newest-first list (the most recently received not-yet-completed task);
moreover, `task_received` marks every previously active task completed with
`completedAt = now` and prepends the new task as `active`. -/
theorem single_active_task (fmt : String → String) (t0 : Int) (steps : List Step) :
    (((runSteps fmt steps (initialState t0)).1.tasks.filter
          (fun t => t.status == TaskStatus.active)).length ≤ 1
      ∧ ∀ t ∈ (runSteps fmt steps (initialState t0)).1.tasks,
          t.status = TaskStatus.active →
            (runSteps fmt steps (initialState t0)).1.tasks.head? = some t)
    ∧ ∀ (now : Int) (e : TarsEvent) (s : EngineState),
        e.type = "task_received" →
          (handleEvent fmt now e s).tasks
            = ⟨s.taskId + 1, e.data.task, fmt e.timestamp,
               orStr e.data.source "imessage", TaskStatus.active, now, none⟩
              :: s.tasks.map (completeActive now) := by
  constructor
  · have hinv := runSteps_atMostHeadActive fmt steps (initialState t0) trivial
    exact ⟨atMostHeadActive_filter_le_one _ hinv, atMostHeadActive_head _ hinv⟩
  · intro now e s he
    obtain ⟨t, ts, u, d⟩ := e
    simp only at he
    subst he
    rfl

/-- Witness for `single_active_task` on a concrete `task_received` event. -/
theorem single_active_task_witness :
    ((⟨"task_received", "t", 0, { noData with task := some "fix bug" }⟩ : TarsEvent).type
        = "task_received")
    ∧ (handleEvent (fun x => x) 5
        ⟨"task_received", "t", 0, { noData with task := some "fix bug" }⟩
        (initialState 0)).tasks
      = ⟨(initialState 0).taskId + 1,
         ({ noData with task := some "fix bug" } : EventData).task,
         (fun x => (x : String)) "t",
         orStr ({ noData with task := some "fix bug" } : EventData).source "imessage",
         TaskStatus.active, 5, none⟩
        :: (initialState 0).tasks.map (completeActive 5) :=
  ⟨rfl,
   (single_active_task (fun x => x) 0 []).2 5
     ⟨"task_received", "t", 0, { noData with task := some "fix bug" }⟩
     (initialState 0) rfl⟩

/-- Claim C2: after `thinking_start{model:"m"}`, deltas `"a"` then `"b"` accumulate
to `"ab"` in the current block; `tool_called` clears the current pointer, so a
later delta `"c"` leaves the block at `"ab"` and the block list unchanged. -/
theorem thinking_accumulation_scenario :
    (handleEvent (fun x => x) 0 ⟨"thinking", "t3", 0, { noData with text := some "b" }⟩
      (handleEvent (fun x => x) 0 ⟨"thinking", "t2", 0, { noData with text := some "a" }⟩
        (handleEvent (fun x => x) 0 ⟨"thinking_start", "t1", 0, { noData with model := some "m" }⟩
          (initialState 0)))).thinkingBlocks.map (fun b => (b.id, b.text))
      = [("think-1", some "ab")]
    ∧ (handleEvent (fun x => x) 0 ⟨"tool_called", "t4", 0, { noData with tool_name := some "bash" }⟩
        (handleEvent (fun x => x) 0 ⟨"thinking", "t3", 0, { noData with text := some "b" }⟩
          (handleEvent (fun x => x) 0 ⟨"thinking", "t2", 0, { noData with text := some "a" }⟩
            (handleEvent (fun x => x) 0 ⟨"thinking_start", "t1", 0, { noData with model := some "m" }⟩
              (initialState 0))))).currentThink = none
    ∧ (handleEvent (fun x => x) 0 ⟨"thinking", "t5", 0, { noData with text := some "c" }⟩
        (handleEvent (fun x => x) 0 ⟨"tool_called", "t4", 0, { noData with tool_name := some "bash" }⟩
          (handleEvent (fun x => x) 0 ⟨"thinking", "t3", 0, { noData with text := some "b" }⟩
            (handleEvent (fun x => x) 0 ⟨"thinking", "t2", 0, { noData with text := some "a" }⟩
              (handleEvent (fun x => x) 0 ⟨"thinking_start", "t1", 0, { noData with model := some "m" }⟩
                (initialState 0)))))).thinkingBlocks
      = (handleEvent (fun x => x) 0 ⟨"tool_called", "t4", 0, { noData with tool_name := some "bash" }⟩
          (handleEvent (fun x => x) 0 ⟨"thinking", "t3", 0, { noData with text := some "b" }⟩
            (handleEvent (fun x => x) 0 ⟨"thinking", "t2", 0, { noData with text := some "a" }⟩
              (handleEvent (fun x => x) 0 ⟨"thinking_start", "t1", 0, { noData with model := some "m" }⟩
                (initialState 0))))).thinkingBlocks
    ∧ (handleEvent (fun x => x) 0 ⟨"thinking", "t5", 0, { noData with text := some "c" }⟩
        (handleEvent (fun x => x) 0 ⟨"tool_called", "t4", 0, { noData with tool_name := some "bash" }⟩
          (handleEvent (fun x => x) 0 ⟨"thinking", "t3", 0, { noData with text := some "b" }⟩
            (handleEvent (fun x => x) 0 ⟨"thinking", "t2", 0, { noData with text := some "a" }⟩
              (handleEvent (fun x => x) 0 ⟨"thinking_start", "t1", 0, { noData with model := some "m" }⟩
                (initialState 0)))))).thinkingBlocks.map (fun b => (b.id, b.text))
      = [("think-1", some "ab"), ("tool-2", none)] := by
  refine ⟨by decide, by decide, by decide, by decide⟩

/-- Claim C3: an `api_call` event with `tokens_in = 10`, `tokens_out = 5` adds
exactly 10 and 5 to the running token totals (a missing token field adds
zero) and leaves every other stats field unchanged; a later `stats` event
replaces the whole snapshot with the payload, ignoring the local
increments. -/
theorem api_call_accumulates_stats_replaces (fmt : String → String)
    (now now2 : Int) (ts ts2 : String) (u u2 : Int) (s : EngineState)
    (d : EventData) (a b : Int)
    (hin : s.stats.total_tokens_in = some a)
    (hout : s.stats.total_tokens_out = some b)
    (h10 : d.tokens_in = some 10) (h5 : d.tokens_out = some 5) :
    ((handleEvent fmt now ⟨"api_call", ts, u, d⟩ s).stats.total_tokens_in = some (a + 10)
      ∧ (handleEvent fmt now ⟨"api_call", ts, u, d⟩ s).stats.total_tokens_out = some (b + 5)
      ∧ (handleEvent fmt now ⟨"api_call", ts, u, d⟩ s).stats.total_events = s.stats.total_events
      ∧ (handleEvent fmt now ⟨"api_call", ts, u, d⟩ s).stats.total_cost = s.stats.total_cost
      ∧ (handleEvent fmt now ⟨"api_call", ts, u, d⟩ s).stats.actions_success = s.stats.actions_success
      ∧ (handleEvent fmt now ⟨"api_call", ts, u, d⟩ s).stats.actions_failed = s.stats.actions_failed
      ∧ (handleEvent fmt now ⟨"api_call", ts, u, d⟩ s).stats.start_time = s.stats.start_time
      ∧ (handleEvent fmt now ⟨"api_call", ts, u, d⟩ s).stats.uptime_seconds = s.stats.uptime_seconds
      ∧ (handleEvent fmt now ⟨"api_call", ts, u, d⟩ s).stats.tool_usage = s.stats.tool_usage
      ∧ (handleEvent fmt now ⟨"api_call", ts, u, d⟩ s).stats.model_usage = s.stats.model_usage)
    ∧ ((handleEvent fmt now ⟨"api_call", ts, u, noData⟩ s).stats.total_tokens_in
          = s.stats.total_tokens_in
      ∧ (handleEvent fmt now ⟨"api_call", ts, u, noData⟩ s).stats.total_tokens_out
          = s.stats.total_tokens_out)
    ∧ ∀ (d2 : EventData),
        (handleEvent fmt now2 ⟨"stats", ts2, u2, d2⟩
          (handleEvent fmt now ⟨"api_call", ts, u, d⟩ s)).stats = castStats d2 := by
  refine ⟨⟨?_, ?_, rfl, rfl, rfl, rfl, rfl, rfl, rfl, rfl⟩, ⟨?_, ?_⟩, fun d2 => rfl⟩
  · show jsAdd s.stats.total_tokens_in (orZero d.tokens_in) = some (a + 10)
    rw [hin, h10]
    rfl
  · show jsAdd s.stats.total_tokens_out (orZero d.tokens_out) = some (b + 5)
    rw [hout, h5]
    rfl
  · show jsAdd s.stats.total_tokens_in (orZero none) = s.stats.total_tokens_in
    rw [hin]
    simp [jsAdd, orZero]
  · show jsAdd s.stats.total_tokens_out (orZero none) = s.stats.total_tokens_out
    rw [hout]
    simp [jsAdd, orZero]

/-- Witness for `api_call_accumulates_stats_replaces` at the initial state
and a payload carrying `tokens_in = 10`, `tokens_out = 5`. -/
theorem api_call_accumulates_stats_replaces_witness :
    ((initialState 0).stats.total_tokens_in = some 0)
    ∧ (handleEvent (fun x => x) 0 ⟨"api_call", "t", 0,
          { noData with tokens_in := some 10, tokens_out := some 5 }⟩
        (initialState 0)).stats.total_tokens_in = some (0 + 10) :=
  ⟨rfl,
   (api_call_accumulates_stats_replaces (fun x => x) 0 0 "t" "t2" 0 0 (initialState 0)
      { noData with tokens_in := some 10, tokens_out := some 5 } 0 0
      rfl rfl rfl rfl).1.1⟩

/-- Claim C4 counterexample: a direct `sendMessage` call with empty text while
disconnected still appends an optimistic local ChatMessage, and a
`sendMessage` call with empty text while connected still transmits a
`send_task` frame — `sendMessage` itself performs no rejection. -/
theorem sendMessage_is_not_guarded :
    (initialState 0).connectionState ≠ ConnectionState.connected
    ∧ (sendMessage 0 "t" "" (initialState 0)).1.messages
        = [⟨1, some "", Sender.user, "t", 0⟩]
    ∧ (sendMessage 0 "t" ""
        (applyStateChange ConnectionState.connected (initialState 0))).2
        = [Frame.send_task ""] := by
  refine ⟨by decide, rfl, rfl⟩

/-- Claim C4 amended: the rejection happens one layer up, in the message panel's
`handleSend`: empty (trimmed) input or a non-connected state returns without
calling `sendMessage`, so no frame is sent and no ChatMessage is appended.
`sendMessage` itself always appends an optimistic ChatMessage; its frame is
dropped by the connection manager when not connected. -/
theorem handleSend_rejects_at_panel (now : Int) (time input : String) (s : EngineState)
    (h : input.trim = "" ∨ s.connectionState ≠ ConnectionState.connected) :
    handleSend now time input s = (s, [])
    ∧ (∀ msg : String, (sendMessage now time msg s).1.messages
        = s.messages ++ [⟨s.msgId + 1, some msg, Sender.user, time, now⟩])
    ∧ (s.connectionState ≠ ConnectionState.connected →
        ∀ msg : String, (sendMessage now time msg s).2 = []) := by
  refine ⟨?_, fun msg => rfl, fun hc msg => ?_⟩
  · unfold handleSend
    dsimp only
    rw [if_pos h]
  · show wsSend s.connectionState (Frame.send_task msg) = []
    unfold wsSend
    rw [if_neg hc]

/-- Witness for `handleSend_rejects_at_panel`: input typed while
disconnected is silently dropped. -/
theorem handleSend_rejects_at_panel_witness :
    ("hello".trim = "" ∨ (initialState 0).connectionState ≠ ConnectionState.connected)
    ∧ handleSend 0 "t" "hello" (initialState 0) = (initialState 0, []) :=
  ⟨Or.inr (by decide),
   (handleSend_rejects_at_panel 0 "t" "hello" (initialState 0) (Or.inr (by decide))).1⟩

/-- Claim C5 counterexample: a connection-state transition by itself determines
`mac` — transitioning to `connected` forces `mac = reachable` and
transitioning away forces `mac = unreachable`, from any prior value. -/
theorem mac_depends_on_connection :
    (initialState 0).subsystems.mac = "unreachable"
    ∧ (applyStateChange ConnectionState.connected (initialState 0)).subsystems.mac = "reachable"
    ∧ (applyStateChange ConnectionState.disconnected
        (applyStateChange ConnectionState.connected (initialState 0))).subsystems.mac
        = "unreachable" := by
  refine ⟨rfl, rfl, rfl⟩

/-- Claim C5 amended: `mac` is coupled to the websocket connection — every
connection-state change sets `mac = reachable` exactly when the new state is
`connected` and `websocket = "connected"` exactly then, so after any state
change `mac` and `websocket` mutually determine each other; event processing
never touches `mac`. -/
theorem mac_coupled_to_websocket (c : ConnectionState) (s : EngineState) :
    ((applyStateChange c s).subsystems.mac = "reachable" ↔ c = ConnectionState.connected)
    ∧ ((applyStateChange c s).subsystems.websocket = "connected" ↔ c = ConnectionState.connected)
    ∧ ((applyStateChange c s).subsystems.mac = "reachable" ↔
        (applyStateChange c s).subsystems.websocket = "connected")
    ∧ ∀ (fmt : String → String) (now : Int) (e : TarsEvent) (s2 : EngineState),
        (handleEvent fmt now e s2).subsystems.mac = s2.subsystems.mac := by
  refine ⟨?_, ?_, ?_, fun fmt now e s2 => handleEvent_mac_eq fmt now e s2⟩
  · cases c <;> simp [applyStateChange]
  · cases c <;> simp [applyStateChange]
  · cases c <;> simp [applyStateChange]

/-- Claim C6 counterexample: the original blanket defaulting clause fails at
three concrete points. A `stats` payload with an absent `total_tokens_in`
leaves the stored field absent (`undefined`), not zero (it goes from
`some 0` to `none`). A `thinking` event with a missing `data.text` appends
the JS string-coercion `"undefined"` to the current block (the block's text
becomes `"undefined"`, neither empty nor a placeholder). A `tool_result`
with missing `tool_name` and `duration` stores both verbatim as absent in
the appended ThinkingBlock instead of defaulting them. -/
theorem router_defaulting_counterexample :
    ((initialState 0).stats.total_tokens_in = some 0
      ∧ (handleEvent (fun x => x) 0 ⟨"stats", "t", 0, noData⟩
          (initialState 0)).stats.total_tokens_in = none)
    ∧ (handleEvent (fun x => x) 0 ⟨"thinking", "t2", 0, noData⟩
        (handleEvent (fun x => x) 0 ⟨"thinking_start", "t1", 0,
          { noData with model := some "m" }⟩ (initialState 0))).thinkingBlocks.map
        (fun b => b.text)
      = [some "undefined"]
    ∧ (handleEvent (fun x => x) 0 ⟨"tool_result", "t", 0, noData⟩
        (initialState 0)).thinkingBlocks.map (fun b => (b.toolName, b.duration))
      = [(none, none)] := by
  refine ⟨⟨rfl, rfl⟩, by decide, by decide⟩

/-- Claim C6 amended: the router is a total function and an unrecognized type
leaves all state unchanged. Missing-field defaulting is per-handler rather
than uniform: `api_call` treats missing `tokens_in`/`tokens_out` exactly as
zero; a missing `model` (`thinking_start`), `source` (`task_received`),
`status` (`status_change`), `message` (`error`), and `context`/`preferences`
(`memory_data`) each behave exactly as the handler's explicit
empty-or-placeholder default; and within `tool_result`, the ActionLogEntry
defaults a missing `tool_name` to `"--"`, a missing `content` to an empty
detail, and a missing `duration` to null. In contrast, the `stats` handler
installs its payload verbatim (absent numeric fields stay absent rather than
zero), a `thinking` delta with a missing `text` appends the JS coercion
string `"undefined"` to the current block, and the `tool_result`
ThinkingBlock stores its missing `tool_name`/`content`/`success`/`duration`
verbatim as absent. -/
theorem router_per_handler_defaulting (fmt : String → String) (now : Int)
    (ts : String) (u : Int) (s : EngineState) :
    (∀ (t ts2 : String) (u2 : Int) (d : EventData),
        t ∉ knownEventTypes → handleEvent fmt now ⟨t, ts2, u2, d⟩ s = s)
    ∧ handleEvent fmt now ⟨"api_call", ts, u, noData⟩ s
        = handleEvent fmt now ⟨"api_call", ts, u,
            { noData with tokens_in := some 0, tokens_out := some 0 }⟩ s
    ∧ handleEvent fmt now ⟨"thinking_start", ts, u, noData⟩ s
        = handleEvent fmt now ⟨"thinking_start", ts, u, { noData with model := some "" }⟩ s
    ∧ handleEvent fmt now ⟨"status_change", ts, u, noData⟩ s
        = handleEvent fmt now ⟨"status_change", ts, u, { noData with status := some "online" }⟩ s
    ∧ handleEvent fmt now ⟨"task_received", ts, u, noData⟩ s
        = handleEvent fmt now ⟨"task_received", ts, u, { noData with source := some "imessage" }⟩ s
    ∧ handleEvent fmt now ⟨"error", ts, u, noData⟩ s
        = handleEvent fmt now ⟨"error", ts, u, { noData with message := some "Unknown error" }⟩ s
    ∧ handleEvent fmt now ⟨"memory_data", ts, u, noData⟩ s
        = handleEvent fmt now ⟨"memory_data", ts, u,
            { noData with context := some "", preferences := some "" }⟩ s
    ∧ (handleEvent fmt now ⟨"tool_result", ts, u, noData⟩ s).actionLog
        = s.actionLog ++ [⟨s.actionId + 1, "--", "", none, none, fmt ts⟩]
    ∧ (handleEvent fmt now ⟨"tool_result", ts, u, noData⟩ s).thinkingBlocks
        = s.thinkingBlocks ++
          [⟨"result-" ++ toString (s.blockId + 1), BlockType.tool_result, none, none,
            none, none, none, none, none, some (fmt ts)⟩]
    ∧ (∀ (d : EventData), (handleEvent fmt now ⟨"stats", ts, u, d⟩ s).stats = castStats d)
    ∧ ∀ (idx : Nat) (b : ThinkingBlock),
        s.thinkingBlocks.findIdx? (fun bb => some bb.id == s.currentThink) = some idx →
        s.thinkingBlocks.get? idx = some b →
        (handleEvent fmt now ⟨"thinking", ts, u, noData⟩ s).thinkingBlocks
          = s.thinkingBlocks.set idx
              { b with text := some (orStr b.text "" ++ "undefined") } := by
  refine ⟨fun t ts2 u2 d h => handleEvent_of_not_known fmt now t ts2 u2 d s h,
    rfl, rfl, rfl, rfl, rfl, rfl, ?_, rfl, fun d => rfl, ?_⟩
  · have h0 : ("" : String).take 200 = "" := by
      rw [String.take_eq]
      rfl
    show s.actionLog ++ [⟨s.actionId + 1, "--", ("" : String).take 200, none, none, fmt ts⟩]
        = s.actionLog ++ [⟨s.actionId + 1, "--", "", none, none, fmt ts⟩]
    rw [h0]
  · intro idx b hf hg
    show (match s.thinkingBlocks.findIdx? (fun bb => some bb.id == s.currentThink) with
          | none => s.thinkingBlocks
          | some i =>
            match s.thinkingBlocks.get? i with
            | none => s.thinkingBlocks
            | some bb =>
              s.thinkingBlocks.set i
                { bb with text := some (orStr bb.text "" ++ jsToString (noData.text)) })
        = s.thinkingBlocks.set idx { b with text := some (orStr b.text "" ++ "undefined") }
    rw [hf]
    show (match s.thinkingBlocks.get? idx with
          | none => s.thinkingBlocks
          | some bb =>
            s.thinkingBlocks.set idx
              { bb with text := some (orStr bb.text "" ++ jsToString (noData.text)) })
        = s.thinkingBlocks.set idx { b with text := some (orStr b.text "" ++ "undefined") }
    rw [hg]
    rfl

/-- Witness for `router_per_handler_defaulting`: a concrete unrecognized
event type leaves the initial state unchanged, and a concrete `thinking`
event with a missing `text`, aimed at the block created by a
`thinking_start`, appends the coercion string `"undefined"` to it. -/
theorem router_per_handler_defaulting_witness :
    ("bogus_event" ∉ knownEventTypes)
    ∧ handleEvent (fun x => x) 0 ⟨"bogus_event", "t", 0, noData⟩ (initialState 0)
        = initialState 0
    ∧ (handleEvent (fun x => x) 0 ⟨"thinking_start", "t1", 0,
          { noData with model := some "m" }⟩ (initialState 0)).thinkingBlocks.findIdx?
        (fun bb => some bb.id ==
          (handleEvent (fun x => x) 0 ⟨"thinking_start", "t1", 0,
            { noData with model := some "m" }⟩ (initialState 0)).currentThink) = some 0
    ∧ (handleEvent (fun x => x) 0 ⟨"thinking", "t2", 0, noData⟩
        (handleEvent (fun x => x) 0 ⟨"thinking_start", "t1", 0,
          { noData with model := some "m" }⟩ (initialState 0))).thinkingBlocks
      = (handleEvent (fun x => x) 0 ⟨"thinking_start", "t1", 0,
          { noData with model := some "m" }⟩ (initialState 0)).thinkingBlocks.set 0
          { (⟨"think-1", BlockType.thinking, some "m", some "", none, none, none, none,
              none, none⟩ : ThinkingBlock) with
            text := some (orStr (some "") "" ++ "undefined") } :=
  ⟨by decide,
   (router_per_handler_defaulting (fun x => x) 0 "t" 0 (initialState 0)).1 "bogus_event" "t" 0
     noData (by decide),
   by decide,
   (router_per_handler_defaulting (fun x => x) 0 "t2" 0
      (handleEvent (fun x => x) 0 ⟨"thinking_start", "t1", 0,
        { noData with model := some "m" }⟩ (initialState 0))).2.2.2.2.2.2.2.2.2.2 0
     ⟨"think-1", BlockType.thinking, some "m", some "", none, none, none, none, none, none⟩
     (by decide) (by decide)⟩

/-- Claim C7: over any interleaving of inbound events, connection-state changes
and commands from the initial state, ids strictly increase within each
series in assignment order: ChatMessage and ActionLogEntry ids strictly
increase along their append-ordered lists (including the optimistic
`sendMessage` appends), TaskItem ids strictly decrease along the
newest-first task list (so strictly increase in assignment order), and the
ThinkingBlock id strings are generated by a strictly increasing sequence of
serial numbers from the shared block counter. -/
theorem ids_strictly_increasing (fmt : String → String) (t0 : Int) (steps : List Step) :
    List.Chain' (fun a b => a < b)
      ((runSteps fmt steps (initialState t0)).1.messages.map ChatMessage.id)
    ∧ List.Chain' (fun a b => a < b)
      ((runSteps fmt steps (initialState t0)).1.actionLog.map ActionLogEntry.id)
    ∧ List.Chain' (fun a b => a > b)
      ((runSteps fmt steps (initialState t0)).1.tasks.map TaskItem.id)
    ∧ blockChain 0 (runSteps fmt steps (initialState t0)).1.blockId
      (runSteps fmt steps (initialState t0)).1.thinkingBlocks := by
  have h0 : IdInv (initialState t0) :=
    ⟨Nat.le_refl 0, Nat.le_refl 0, trivial, Nat.le_refl 0⟩
  obtain ⟨hm, ha, ht, hb⟩ := runSteps_IdInv fmt steps (initialState t0) h0
  exact ⟨ascChain_chain _ 0 _ hm, ascChain_chain _ 0 _ ha, descChain_chain _ _ ht, hb⟩

/-- Claim C8: a `tool_result` whose `content` is longer than 200 characters appends
an ActionLogEntry whose `detail` is the content truncated to exactly 200
characters, appends a `tool_result` ThinkingBlock, and sets `claude` to
`idle`. -/
theorem tool_result_truncates_detail (fmt : String → String) (now : Int)
    (ts : String) (u : Int) (s : EngineState) (d : EventData) (c : String)
    (hc : d.content = some c) (hl : 200 < c.length) :
    (handleEvent fmt now ⟨"tool_result", ts, u, d⟩ s).actionLog
      = s.actionLog ++
        [⟨s.actionId + 1, orStr d.tool_name "--", c.take 200, d.success,
          orNullInt d.duration, fmt ts⟩]
    ∧ (c.take 200).length = 200
    ∧ (handleEvent fmt now ⟨"tool_result", ts, u, d⟩ s).thinkingBlocks
      = s.thinkingBlocks ++
        [⟨"result-" ++ toString (s.blockId + 1), BlockType.tool_result, none, none,
          d.tool_name, none, some c, d.success, d.duration, some (fmt ts)⟩]
    ∧ (handleEvent fmt now ⟨"tool_result", ts, u, d⟩ s).subsystems.claude = "idle" := by
  have hne : c ≠ "" := by
    intro h
    subst h
    simp at hl
  have horc : orStr d.content "" = c := by
    rw [hc]
    simp [orStr, hne]
  refine ⟨?_, ?_, ?_, rfl⟩
  · show s.actionLog ++
        [⟨s.actionId + 1, orStr d.tool_name "--", (orStr d.content "").take 200, d.success,
          orNullInt d.duration, fmt ts⟩] = _
    rw [horc]
  · rw [String.take_eq]
    simp only [String.length]
    rw [List.length_take]
    simp only [String.length] at hl
    omega
  · show s.thinkingBlocks ++
        [⟨"result-" ++ toString (s.blockId + 1), BlockType.tool_result, none, none,
          d.tool_name, none, d.content, d.success, d.duration, some (fmt ts)⟩] = _
    rw [hc]

/-- Witness for `tool_result_truncates_detail` on a 201-character content
string. -/
theorem tool_result_truncates_detail_witness :
    200 < (String.mk (List.replicate 201 'x')).length
    ∧ ((String.mk (List.replicate 201 'x')).take 200).length = 200 :=
  ⟨by
    show 200 < (List.replicate 201 'x').length
    rw [List.length_replicate]
    omega,
   (tool_result_truncates_detail (fun x => x) 0 "t" 0 (initialState 0)
      { noData with content := some (String.mk (List.replicate 201 'x')) }
      (String.mk (List.replicate 201 'x')) rfl
      (by
        show 200 < (List.replicate 201 'x').length
        rw [List.length_replicate]
        omega)).2.1⟩

/-- Claim C9: a heartbeat tick transmits a `get_stats` frame exactly when the
connection state is `connected` and never mutates the state (so missed
ticks leave no queued work and reconnection triggers no catch-up); over any
step sequence, the number of transmitted `get_stats` frames equals the
number of ticks that happened while connected. -/
theorem heartbeat_get_stats_iff_connected (fmt : String → String) :
    (∀ s : EngineState, heartbeatTick s
        = (s, if s.connectionState = ConnectionState.connected
              then [Frame.get_stats] else []))
    ∧ ∀ (steps : List Step) (s : EngineState),
        countGetStats (runSteps fmt steps s).2 = connTicks fmt steps s := by
  constructor
  · intro s
    unfold heartbeatTick wsSend
    by_cases h : s.connectionState = ConnectionState.connected <;> simp [h]
  · intro steps
    induction steps with
    | nil => intro s; rfl
    | cons st rest ih =>
      intro s
      show countGetStats ((runStep fmt st s).2 ++ (runSteps fmt rest (runStep fmt st s).1).2)
        = connTicks fmt (st :: rest) s
      rw [countGetStats_append, ih]
      cases st with
      | inbound now e => simp [runStep, countGetStats, connTicks]
      | stateChange c => simp [runStep, countGetStats, connTicks]
      | sendTaskCmd task =>
        simp [runStep, sendTask, countGetStats_wsSend_send_task, connTicks]
      | sendMsg now time msg =>
        simp [runStep, sendMessage, countGetStats_wsSend_send_task, connTicks]
      | kill => simp [runStep, killAgent, countGetStats_wsSend_kill, connTicks]
      | tick =>
        by_cases h : s.connectionState = ConnectionState.connected <;>
          simp [runStep, heartbeatTick, wsSend, h, countGetStats, connTicks]

/-- Claim C10: `killAgent` always applies the optimistic `agent → killed` mutation,
regardless of connection state; every other subsystem field and state slice
is unchanged; the `kill` frame is transmitted only while connected. -/
theorem killAgent_optimistic_mutation (s : EngineState) :
    (killAgent s).1.subsystems.agent = "killed"
    ∧ (killAgent s).1.connectionState = s.connectionState
    ∧ (killAgent s).1.subsystems.websocket = s.subsystems.websocket
    ∧ (killAgent s).1.subsystems.mac = s.subsystems.mac
    ∧ (killAgent s).1.subsystems.claude = s.subsystems.claude
    ∧ (killAgent s).1.tasks = s.tasks
    ∧ (killAgent s).1.thinkingBlocks = s.thinkingBlocks
    ∧ (killAgent s).1.messages = s.messages
    ∧ (killAgent s).1.actionLog = s.actionLog
    ∧ (killAgent s).1.stats = s.stats
    ∧ (killAgent s).1.memoryContext = s.memoryContext
    ∧ (killAgent s).1.memoryPreferences = s.memoryPreferences
    ∧ (killAgent s).2
        = (if s.connectionState = ConnectionState.connected then [Frame.kill] else []) :=
  ⟨rfl, rfl, rfl, rfl, rfl, rfl, rfl, rfl, rfl, rfl, rfl, rfl, rfl⟩

end Tars
